import Mathlib

/-!
Verification of the dodge-game core (`src/components/DodgeGame.tsx`).

A shallow embedding of the client-side game-loop core: configuration
constants, the progression model, the simulation clock, player motion with
the idle tracker, the obstacle spawner, the idle-exploit countermeasure,
the motion integrator and the ellipse-vs-circle collision detector.

Numeric game quantities are modelled over `ℚ` (every literal in the source
is a decimal rational); the collision test, which takes square roots, is
modelled as a proposition over `ℝ` via the rational casts.
-/

namespace DodgeGame

/-! ## Configuration constants (GAME_CONFIG and friends) -/

def CANVAS_WIDTH : ℚ := 400

def CANVAS_HEIGHT : ℚ := 600

def PLAYER_WIDTH : ℚ := 22

def PLAYER_HEIGHT : ℚ := 32

def PLAYER_SPEED : ℚ := 6

def FALLING_OBJECT_WIDTH : ℚ := 28

def FALLING_OBJECT_HEIGHT : ℚ := 28

def INITIAL_FALLING_SPEED : ℚ := 5.25

def SPAWN_RATE : ℚ := 0.0525

def MAX_FALLING_OBJECTS : ℕ := 22

def LEVEL_UP_SCORE : ℕ := 20

/-- Source constant `HITBOX_CONFIG.PLAYER_SCALE.rx`. -/
def PLAYER_SCALE_RX : ℚ := 0.35

/-- Source constant `HITBOX_CONFIG.PLAYER_SCALE.ry`. -/
def PLAYER_SCALE_RY : ℚ := 0.45

/-- Source constant `HITBOX_CONFIG.METEOR_SCALE`. -/
def METEOR_SCALE : ℚ := 0.45

/-- Idle threshold in milliseconds (`IDLE_THRESHOLD = 1000`). -/
def IDLE_THRESHOLD : ℚ := 1000

/-- Forced-spawn cooldown in milliseconds (`TARGET_METEOR_COOLDOWN = 3000`). -/
def TARGET_METEOR_COOLDOWN : ℚ := 3000

/-- Acceleration per frame (`ACCELERATION = 0.8`). -/
def ACCELERATION : ℚ := 0.8

/-- Maximum horizontal speed (`MAX_SPEED = GAME_CONFIG.PLAYER_SPEED`). -/
def MAX_SPEED : ℚ := PLAYER_SPEED

/-- Friction factor (`FRICTION = 0.85`). -/
def FRICTION : ℚ := 0.85

/-! ## Data model -/

/-- Source `interface GameObject`, with fields x, y, width, height. -/
structure GameObject where
  x : ℚ
  y : ℚ
  width : ℚ
  height : ℚ
  deriving DecidableEq

/-- Source `interface FallingObject extends GameObject` with `speed` (flattened). -/
structure FallingObject where
  x : ℚ
  y : ℚ
  width : ℚ
  height : ℚ
  speed : ℚ
  deriving DecidableEq

/-- Source `type GameState`, one of start, playing and gameOver. -/
inductive GameState where
  | start
  | playing
  | gameOver
  deriving DecidableEq

/-! ## Progression model -/

/-- Source `getCurrentLevel(score) = Math.floor(score / LEVEL_UP_SCORE) + 1`;
`score` is a non-negative integer, so JS floor division is `ℕ` division. -/
def getCurrentLevel (score : ℕ) : ℕ :=
  score / LEVEL_UP_SCORE + 1

/-- Source `getSpeedByLevel(level) = INITIAL_FALLING_SPEED * (1 + 0.5 * (level - 1))`. -/
def getSpeedByLevel (level : ℕ) : ℚ :=
  INITIAL_FALLING_SPEED * (1 + 0.5 * ((level : ℚ) - 1))

/-! ## Simulation clock

`loopRef.current`: `const dt = prevTimeRef.current ?
(currentTime - prevTimeRef.current) / 16.6667 : 1`, followed by
`prevTimeRef.current = currentTime`.  The stored previous timestamp is reset
to the JS-falsy sentinel `0` on every transition into `playing`. -/

/-- The per-tick `dt` of the game loop. -/
def simClockDt (currentTime prevTime : ℚ) : ℚ :=
  if prevTime ≠ 0 then (currentTime - prevTime) / 16.6667 else 1

/-- One clock sample: the produced `dt` together with the new stored
previous timestamp. -/
def simClockStep (currentTime prevTime : ℚ) : ℚ × ℚ :=
  (simClockDt currentTime prevTime, currentTime)

/-! ## Motion integrator (`updateFallingObjects`) -/

/-- The per-obstacle motion step `obj.y += obj.speed * dt`. -/
def moveObstacle (dt : ℚ) (obj : FallingObject) : FallingObject :=
  { obj with y := obj.y + obj.speed * dt }

/-- Source `updateFallingObjects(dt)`: single filtering pass; an obstacle whose
updated `y` exceeds `CANVAS_HEIGHT` is removed and scores one point
(`setScore(prev => prev + 1)`), every other obstacle is retained with its
updated `y`.  Returns the retained list and the number of score
increments. -/
def updateFallingObjects (dt : ℚ) : List FallingObject → List FallingObject × ℕ
  | [] => ([], 0)
  | obj :: rest =>
    if CANVAS_HEIGHT < (moveObstacle dt obj).y then
      ((updateFallingObjects dt rest).1, (updateFallingObjects dt rest).2 + 1)
    else
      (moveObstacle dt obj :: (updateFallingObjects dt rest).1,
        (updateFallingObjects dt rest).2)

/-! ## Player motion model (`updatePlayer`, acceleration variant) -/

/-- The directional intent computed from the key/touch flags; the source
produces `inputDirection ∈ {-1, 0, 1}`. -/
inductive InputDir where
  | left
  | neutral
  | right
  deriving DecidableEq

/-- The numeric value of the intent. -/
def InputDir.toQ : InputDir → ℚ
  | InputDir.left => -1
  | InputDir.neutral => 0
  | InputDir.right => 1

/-- Mutable per-tick player-motion state: `player.x`,
`playerVelocityRef.current`, `playerIdleTimeRef.current` and
`lastPlayerPositionRef.current`. -/
structure PlayerMotionState where
  x : ℚ
  velocity : ℚ
  idleTime : ℚ
  lastPosition : ℚ
  deriving DecidableEq

/-- The acceleration/friction step of `updatePlayer`: with input, accelerate
and clamp to `[-MAX_SPEED, MAX_SPEED]`; without, multiply by `FRICTION` and
snap to `0` below `0.1`. -/
def updateVelocity (v : ℚ) (dir : InputDir) : ℚ :=
  if dir ≠ InputDir.neutral then
    max (-MAX_SPEED) (min MAX_SPEED (v + dir.toQ * ACCELERATION))
  else
    if |v * FRICTION| < 0.1 then 0 else v * FRICTION

/-- The boundary step of `updatePlayer`: `newX = x + v`; inside
`[0, CANVAS_WIDTH - PLAYER_WIDTH]` the tentative position is taken and the
velocity kept, otherwise the velocity is zeroed and `x` clamped to the
violated boundary.  Returns `(new x, new velocity)`. -/
def updatePosition (x v : ℚ) : ℚ × ℚ :=
  if 0 ≤ x + v ∧ x + v ≤ CANVAS_WIDTH - PLAYER_WIDTH then
    (x + v, v)
  else if x + v < 0 then
    (0, 0)
  else if CANVAS_WIDTH - PLAYER_WIDTH < x + v then
    (CANVAS_WIDTH - PLAYER_WIDTH, 0)
  else
    (x, 0)

/-- One full `updatePlayer` tick: velocity update, position update, then the
idle tracker — `currentPosition` is the x captured at entry; if it differs
from the last recorded position by more than `1`, the idle time resets and
the recorded position is refreshed, otherwise the idle time grows by the
nominal frame interval `16` ms (the source adds the literal `16`, never
`dt`). -/
def updatePlayer (s : PlayerMotionState) (dir : InputDir) : PlayerMotionState :=
  let v := updateVelocity s.velocity dir
  let xv := updatePosition s.x v
  if 1 < |s.x - s.lastPosition| then
    { x := xv.1, velocity := xv.2, idleTime := 0, lastPosition := s.x }
  else
    { x := xv.1, velocity := xv.2, idleTime := s.idleTime + 16,
      lastPosition := s.lastPosition }

/-! ## Obstacle spawner (`spawnFallingObject`)

The random draws are passed in explicitly: `r1` is the spawn-decision sample
and `r2` the position sample, both produced by `Math.random()` with values
in `[0, 1)`. -/

/-- Source `spawnFallingObject`: refuse when the cap is reached; otherwise spawn
with probability `currentSpawnRate` at `x = r2 * (CANVAS_WIDTH -
FALLING_OBJECT_WIDTH)`, `y = 0`, speed fixed from the current level. -/
def spawnFallingObject (level : ℕ) (r1 r2 : ℚ) (objs : List FallingObject) :
    List FallingObject :=
  if MAX_FALLING_OBJECTS ≤ objs.length then
    objs
  else
    if r1 < min (SPAWN_RATE * (1 + ((level : ℚ) - 1) * 0.15)) (SPAWN_RATE * 2) then
      objs ++ [{ x := r2 * (CANVAS_WIDTH - FALLING_OBJECT_WIDTH), y := 0,
                 width := FALLING_OBJECT_WIDTH, height := FALLING_OBJECT_HEIGHT,
                 speed := getSpeedByLevel level }]
    else
      objs

/-! ## Idle-exploit countermeasure (`spawnTargetMeteor`)

`now` is `performance.now()`, `idleTime` is `playerIdleTimeRef.current`,
`lastForced` is `lastTargetMeteorTimeRef.current`, and `r` is the
`Math.random()` jitter sample in `[0, 1)`. -/

/-- Whether `spawnTargetMeteor` gets past its two early returns (the
cooldown guard, then the idle guard). -/
def targetMeteorFires (now idleTime lastForced : ℚ) : Bool :=
  if now - lastForced < TARGET_METEOR_COOLDOWN then false
  else if idleTime < IDLE_THRESHOLD then false
  else true

/-- The clamped spawn x of the targeted meteor:
`max(0, min(CANVAS_WIDTH - meteorWidth, playerCenter - meteorWidth/2 +
(r - 0.5) * 40))`. -/
def targetMeteorX (player : GameObject) (r : ℚ) : ℚ :=
  max 0 (min (CANVAS_WIDTH - FALLING_OBJECT_WIDTH)
    (player.x + player.width / 2 - FALLING_OBJECT_WIDTH / 2 + (r - 0.5) * 40))

/-- Source `spawnTargetMeteor`: when both guards pass, push one targeted obstacle
(no cap check in the source) and record `now` as the last forced-spawn
time; otherwise leave everything unchanged.  Returns the obstacle list and
the new `lastTargetMeteorTimeRef` value. -/
def spawnTargetMeteor (now idleTime lastForced : ℚ) (level : ℕ)
    (player : GameObject) (r : ℚ) (objs : List FallingObject) :
    List FallingObject × ℚ :=
  if targetMeteorFires now idleTime lastForced then
    (objs ++ [{ x := targetMeteorX player r, y := 0,
                width := FALLING_OBJECT_WIDTH, height := FALLING_OBJECT_HEIGHT,
                speed := getSpeedByLevel level }], now)
  else
    (objs, lastForced)

/-- The forced-spawn times of a run of `spawnTargetMeteor` invocations:
each event is a pair `(now, idleTime)`, and the accumulator threads
`lastTargetMeteorTimeRef` exactly as the source does. -/
def runTargetMeteor : List (ℚ × ℚ) → ℚ → List ℚ
  | [], _ => []
  | e :: events, lastForced =>
    if targetMeteorFires e.1 e.2 lastForced then
      e.1 :: runTargetMeteor events e.1
    else
      runTargetMeteor events lastForced

/-! ## Collision detector -/

/-- Player hitbox: `EllipseHitbox { cx, cy, rx, ry }`. -/
structure EllipseHitbox where
  cx : ℚ
  cy : ℚ
  rx : ℚ
  ry : ℚ
  deriving DecidableEq

/-- Meteor hitbox: `CircleHitbox { cx, cy, radius }`. -/
structure CircleHitbox where
  cx : ℚ
  cy : ℚ
  radius : ℚ
  deriving DecidableEq

/-- Source `getPlayerEllipseHitbox`. -/
def getPlayerEllipseHitbox (player : GameObject) : EllipseHitbox :=
  { cx := player.x + player.width / 2
    cy := player.y + player.height / 2
    rx := player.width / 2 * PLAYER_SCALE_RX
    ry := player.height / 2 * PLAYER_SCALE_RY }

/-- Source `getMeteorCircleHitbox`. -/
def getMeteorCircleHitbox (meteor : FallingObject) : CircleHitbox :=
  { cx := meteor.x + meteor.width / 2
    cy := meteor.y + meteor.height / 2
    radius := min meteor.width meteor.height / 2 * METEOR_SCALE }

/-- Source `ellipseVsCircle`: normalize the circle-center offset by `(rx, ry)`,
normalize the radius the same way divided by `√2`, and collide on the
strict inequality `√(dx'² + dy'²) < 1 + transformedRadius`.  The rational
intermediate arithmetic is cast into `ℝ` for the square roots. -/
def ellipseVsCircle (e : EllipseHitbox) (c : CircleHitbox) : Prop :=
  Real.sqrt (((c.cx - e.cx) / e.rx * ((c.cx - e.cx) / e.rx) +
      (c.cy - e.cy) / e.ry * ((c.cy - e.cy) / e.ry) : ℚ) : ℝ) <
    1 + Real.sqrt ((c.radius / e.rx * (c.radius / e.rx) +
      c.radius / e.ry * (c.radius / e.ry) : ℚ) : ℝ) / Real.sqrt 2

/-- Source `checkCollision(player, meteor)`. -/
def checkCollision (player : GameObject) (meteor : FallingObject) : Prop :=
  ellipseVsCircle (getPlayerEllipseHitbox player) (getMeteorCircleHitbox meteor)

open Classical in
/-- Source `checkCollisions`: walk the live obstacles in collection order; on the
first hit set the game state to `gameOver` and return (the remaining
obstacles are not examined); with no hit the state stays `playing`. -/
noncomputable def checkCollisions (player : GameObject) :
    List FallingObject → GameState
  | [] => GameState.playing
  | obj :: rest =>
    if checkCollision player obj then GameState.gameOver
    else checkCollisions player rest

/-- The collision test in the exact words of the spec: `rx = playerWidth/2 ×
0.35`, `ry = playerHeight/2 × 0.45`, `radius = min(obstacleWidth,
obstacleHeight)/2 × 0.45`, `transformedRadius = √((radius/rx)² +
(radius/ry)²)/√2`, and collision iff `√((dx/rx)² + (dy/ry)²) < 1 +
transformedRadius` with `dx, dy` the circle center's offsets from the
ellipse center.  Stated directly over `ℝ`, to be compared with the
source-derived `checkCollision`. -/
def specCollisionTest (p : GameObject) (m : FallingObject) : Prop :=
  Real.sqrt
      (((((m.x : ℝ) + (m.width : ℝ) / 2) - ((p.x : ℝ) + (p.width : ℝ) / 2)) /
          ((p.width : ℝ) / 2 * 0.35)) ^ 2 +
        ((((m.y : ℝ) + (m.height : ℝ) / 2) - ((p.y : ℝ) + (p.height : ℝ) / 2)) /
          ((p.height : ℝ) / 2 * 0.45)) ^ 2) <
    1 + Real.sqrt
        ((min (m.width : ℝ) (m.height : ℝ) / 2 * 0.45 / ((p.width : ℝ) / 2 * 0.35)) ^ 2 +
          (min (m.width : ℝ) (m.height : ℝ) / 2 * 0.45 / ((p.height : ℝ) / 2 * 0.45)) ^ 2) /
      Real.sqrt 2

/-! ## Theorems -/

/-- C8: the Progression Model computes `level = floor(score /
LEVEL_UP_SCORE) + 1` (with `LEVEL_UP_SCORE = 20`) as a pure function of the
score; it is monotonically non-decreasing in the score — so, the score
being non-decreasing during play, the level never decreases within a
session — and is always at least `1`. -/
theorem claim8_progression_model :
    (∀ score : ℕ,
        (getCurrentLevel score : ℤ) = ⌊(score : ℚ) / (LEVEL_UP_SCORE : ℚ)⌋ + 1) ∧
    (∀ s t : ℕ, s ≤ t → getCurrentLevel s ≤ getCurrentLevel t) ∧
    (∀ score : ℕ, 1 ≤ getCurrentLevel score) := by
  refine ⟨?_, ?_, ?_⟩
  · intro score
    rw [getCurrentLevel, Rat.floor_natCast_div_natCast]
    push_cast
    ring
  · intro s t hst
    exact Nat.add_le_add_right (Nat.div_le_div_right hst) 1
  · intro score
    exact Nat.le_add_left 1 _

/-- Witness for C8 at `score = 5 ≤ 25`. -/
theorem claim8_witness : getCurrentLevel 5 ≤ getCurrentLevel 25 :=
  claim8_progression_model.2.1 5 25 (by decide)

/-- C5: the Motion Integrator is a single exact pass — the retained list is
exactly the moved obstacles with `y ≤ CANVAS_HEIGHT`, the score increment
count is exactly the number of moved obstacles with `y > CANVAS_HEIGHT`,
retained plus removed accounts for every input obstacle exactly once, and
the per-obstacle move changes only `y` (by `speed × dt`), leaving `x`,
`width`, `height` and in particular `speed` unchanged, so an obstacle's
speed is constant over its lifetime even if the level changes after
spawn. -/
theorem claim5_motion_integrator :
    (∀ (dt : ℚ) (objs : List FallingObject),
        (updateFallingObjects dt objs).1 =
          (objs.map (moveObstacle dt)).filter (fun o => decide (o.y ≤ CANVAS_HEIGHT)) ∧
        (updateFallingObjects dt objs).2 =
          ((objs.map (moveObstacle dt)).filter
            (fun o => decide (CANVAS_HEIGHT < o.y))).length ∧
        (updateFallingObjects dt objs).1.length + (updateFallingObjects dt objs).2 =
          objs.length) ∧
    (∀ (dt : ℚ) (obj : FallingObject),
        (moveObstacle dt obj).x = obj.x ∧
        (moveObstacle dt obj).width = obj.width ∧
        (moveObstacle dt obj).height = obj.height ∧
        (moveObstacle dt obj).speed = obj.speed ∧
        (moveObstacle dt obj).y = obj.y + obj.speed * dt) := by
  constructor
  · intro dt objs
    induction objs with
    | nil => simp [updateFallingObjects]
    | cons obj rest ih =>
      obtain ⟨ih1, ih2, ih3⟩ := ih
      by_cases h : CANVAS_HEIGHT < (moveObstacle dt obj).y
      · refine ⟨?_, ?_, ?_⟩
        · simp [updateFallingObjects, h, not_le.mpr h, ih1]
        · simp [updateFallingObjects, h, ih2]
        · simp only [updateFallingObjects, if_pos h, List.length_cons]
          omega
      · refine ⟨?_, ?_, ?_⟩
        · simp [updateFallingObjects, h, not_lt.mp h, ih1]
        · simp [updateFallingObjects, h, ih2]
        · simp only [updateFallingObjects, if_neg h, List.length_cons]
          omega
  · intro dt obj
    exact ⟨rfl, rfl, rfl, rfl, rfl⟩

/-- C6 counterexample: with `prev = 10000` and `now − prev` equal to the
code's literal `16.6667`, the code produces `dt = 1`, but the claimed
formula `(now − prev) / (1000/60)` gives `500001/500000 ≠ 1`: the source
divides by `16.6667`, not by `1000/60` exactly. -/
theorem claim6_counterexample :
    simClockDt (10000 + 166667 / 10000) 10000 ≠
      ((10000 + 166667 / 10000) - 10000) / (1000 / 60) := by
  norm_num [simClockDt]

/-- C6 (amended): on a tick with a stored previous timestamp (the sentinel
`0` means "none"), the clock produces `dt = (now − previous) / 16.6667`
— `16.6667` being the code's approximation of `1000/60` — and on the first
tick after a transition into `playing` (stored timestamp `0`) it produces
`dt = 1`; in both cases the only state change is that the stored previous
timestamp becomes `now`. -/
theorem claim6_amended_clock :
    ∀ currentTime prevTime : ℚ,
      (prevTime ≠ 0 →
        simClockStep currentTime prevTime =
          ((currentTime - prevTime) / 16.6667, currentTime)) ∧
      (prevTime = 0 →
        simClockStep currentTime prevTime = (1, currentTime)) := by
  intro c p
  constructor
  · intro h
    simp [simClockStep, simClockDt, h]
  · intro h
    simp [simClockStep, simClockDt, h]

/-- Witness for the amended C6 at `now = 100`, `prev = 50`. -/
theorem claim6_witness :
    simClockStep 100 50 = ((100 - 50) / 16.6667, 100) :=
  (claim6_amended_clock 100 50).1 (by norm_num)

/-- C7: on each `updatePlayer` tick, the idle tracker resets the idle time
to `0` and records the player's x (the position at tick entry) whenever
that x differs from the recorded position by more than `1`, and otherwise
accumulates exactly `16` ms — the nominal frame interval, never scaled by
`dt` (`updatePlayer` takes no `dt` at all). -/
theorem claim7_idle_tracker :
    ∀ (s : PlayerMotionState) (dir : InputDir),
      (1 < |s.x - s.lastPosition| →
        (updatePlayer s dir).idleTime = 0 ∧
        (updatePlayer s dir).lastPosition = s.x) ∧
      (|s.x - s.lastPosition| ≤ 1 →
        (updatePlayer s dir).idleTime = s.idleTime + 16 ∧
        (updatePlayer s dir).lastPosition = s.lastPosition) := by
  intro s dir
  constructor
  · intro h
    simp [updatePlayer, h]
  · intro h
    simp [updatePlayer, not_lt.mpr h]

/-- Witness for C7 at a stationary player. -/
theorem claim7_witness :
    (updatePlayer ⟨189, 0, 0, 189⟩ InputDir.neutral).idleTime = 0 + 16 ∧
    (updatePlayer ⟨189, 0, 0, 189⟩ InputDir.neutral).lastPosition = 189 :=
  (claim7_idle_tracker ⟨189, 0, 0, 189⟩ InputDir.neutral).2 (by norm_num)

/-- The boundary step always lands in `[0, CANVAS_WIDTH - PLAYER_WIDTH]`. -/
lemma updatePosition_bounds (x v : ℚ) :
    0 ≤ (updatePosition x v).1 ∧
      (updatePosition x v).1 ≤ CANVAS_WIDTH - PLAYER_WIDTH := by
  unfold updatePosition
  by_cases h1 : 0 ≤ x + v ∧ x + v ≤ CANVAS_WIDTH - PLAYER_WIDTH
  · rw [if_pos h1]
    exact h1
  · by_cases h2 : x + v < 0
    · rw [if_neg h1, if_pos h2]
      norm_num [CANVAS_WIDTH, PLAYER_WIDTH]
    · by_cases h3 : CANVAS_WIDTH - PLAYER_WIDTH < x + v
      · rw [if_neg h1, if_neg h2, if_pos h3]
        norm_num [CANVAS_WIDTH, PLAYER_WIDTH]
      · exact absurd ⟨not_lt.mp h2, not_lt.mp h3⟩ h1

/-- One `updatePlayer` tick keeps `x` in `[0, CANVAS_WIDTH - PLAYER_WIDTH]`. -/
lemma updatePlayer_x_bounds (s : PlayerMotionState) (dir : InputDir) :
    0 ≤ (updatePlayer s dir).x ∧
      (updatePlayer s dir).x ≤ CANVAS_WIDTH - PLAYER_WIDTH := by
  unfold updatePlayer
  by_cases h : 1 < |s.x - s.lastPosition| <;>
    simpa [h] using updatePosition_bounds s.x (updateVelocity s.velocity dir)

/-- C3: for every sequence of directional inputs, the player's `x` stays in
`[0, CANVAS_WIDTH − PLAYER_WIDTH]` after each `updatePlayer` tick; the
boundary step takes the tentative `x + velocity` and keeps the velocity
when the tentative position is inside that interval, and otherwise zeroes
the velocity and clamps `x` to the violated boundary (no bounce); the tick's
final `x` and velocity are exactly the boundary step's outputs on the
post-acceleration velocity. -/
theorem claim3_player_bounds :
    (∀ (dirs : List InputDir) (s : PlayerMotionState),
        0 ≤ s.x → s.x ≤ CANVAS_WIDTH - PLAYER_WIDTH →
        0 ≤ (dirs.foldl updatePlayer s).x ∧
          (dirs.foldl updatePlayer s).x ≤ CANVAS_WIDTH - PLAYER_WIDTH) ∧
    (∀ x v : ℚ,
        (0 ≤ x + v ∧ x + v ≤ CANVAS_WIDTH - PLAYER_WIDTH →
          updatePosition x v = (x + v, v)) ∧
        (¬(0 ≤ x + v ∧ x + v ≤ CANVAS_WIDTH - PLAYER_WIDTH) →
          (updatePosition x v).2 = 0 ∧
            ((updatePosition x v).1 = 0 ∨
              (updatePosition x v).1 = CANVAS_WIDTH - PLAYER_WIDTH))) ∧
    (∀ (s : PlayerMotionState) (dir : InputDir),
        (updatePlayer s dir).x =
          (updatePosition s.x (updateVelocity s.velocity dir)).1 ∧
        (updatePlayer s dir).velocity =
          (updatePosition s.x (updateVelocity s.velocity dir)).2) := by
  refine ⟨?_, ?_, ?_⟩
  · intro dirs
    induction dirs with
    | nil => intro s h0 h1; exact ⟨h0, h1⟩
    | cons d ds ih =>
      intro s h0 h1
      simp only [List.foldl_cons]
      exact ih _ (updatePlayer_x_bounds s d).1 (updatePlayer_x_bounds s d).2
  · intro x v
    constructor
    · intro h
      simp [updatePosition, h]
    · intro h
      unfold updatePosition
      by_cases h2 : x + v < 0
      · simp [h, h2]
      · by_cases h3 : CANVAS_WIDTH - PLAYER_WIDTH < x + v
        · simp [h, h2, h3]
        · exact absurd ⟨not_lt.mp h2, not_lt.mp h3⟩ h
  · intro s dir
    unfold updatePlayer
    by_cases h : 1 < |s.x - s.lastPosition| <;> simp [h]

/-- Witness for C3 at the initial player state with one rightward input. -/
theorem claim3_witness :
    0 ≤ (([InputDir.right]).foldl updatePlayer ⟨189, 0, 0, 189⟩).x ∧
      (([InputDir.right]).foldl updatePlayer ⟨189, 0, 0, 189⟩).x ≤
        CANVAS_WIDTH - PLAYER_WIDTH :=
  claim3_player_bounds.1 [InputDir.right] ⟨189, 0, 0, 189⟩ (by norm_num)
    (by norm_num [CANVAS_WIDTH, PLAYER_WIDTH])

/-- The two guards of `spawnTargetMeteor`, as a positive characterization. -/
lemma targetMeteorFires_iff (now idleTime lastForced : ℚ) :
    targetMeteorFires now idleTime lastForced = true ↔
      IDLE_THRESHOLD ≤ idleTime ∧ TARGET_METEOR_COOLDOWN ≤ now - lastForced := by
  constructor
  · intro h
    by_cases h1 : now - lastForced < TARGET_METEOR_COOLDOWN
    · simp [targetMeteorFires, h1] at h
    · by_cases h2 : idleTime < IDLE_THRESHOLD
      · simp [targetMeteorFires, h1, h2] at h
      · exact ⟨not_lt.mp h2, not_lt.mp h1⟩
  · rintro ⟨ha, hb⟩
    simp [targetMeteorFires, not_lt.mpr ha, not_lt.mpr hb]

/-- Consecutive forced-spawn times of a run are at least the cooldown
apart, and the first one is at least the cooldown after the initial
last-forced time. -/
lemma runTargetMeteor_spec (events : List (ℚ × ℚ)) :
    ∀ lastForced : ℚ,
      List.Chain' (fun t1 t2 => TARGET_METEOR_COOLDOWN ≤ t2 - t1)
        (runTargetMeteor events lastForced) ∧
      ∀ t ∈ (runTargetMeteor events lastForced).head?,
        TARGET_METEOR_COOLDOWN ≤ t - lastForced := by
  induction events with
  | nil =>
    intro lastForced
    simp [runTargetMeteor]
  | cons e es ih =>
    intro lastForced
    by_cases h : targetMeteorFires e.1 e.2 lastForced = true
    · rw [runTargetMeteor, if_pos h]
      refine ⟨List.chain'_cons'.mpr ⟨(ih e.1).2, (ih e.1).1⟩, ?_⟩
      intro t ht
      simp only [List.head?_cons, Option.mem_def, Option.some.injEq] at ht
      subst ht
      exact ((targetMeteorFires_iff e.1 e.2 lastForced).mp h).2
    · rw [runTargetMeteor, if_neg h]
      exact ih lastForced

/-- C4: the countermeasure fires exactly when `idleDuration ≥
IDLE_THRESHOLD` and `now − lastForcedSpawnTime ≥ TARGET_METEOR_COOLDOWN`;
on firing it records `now` as the last forced-spawn time and otherwise
changes nothing; consequently, over any sequence of invocations, any two
consecutive firing times are at least the cooldown apart, however long the
idle duration stays above threshold. -/
theorem claim4_idle_countermeasure :
    (∀ now idleTime lastForced : ℚ,
        targetMeteorFires now idleTime lastForced = true ↔
          IDLE_THRESHOLD ≤ idleTime ∧
            TARGET_METEOR_COOLDOWN ≤ now - lastForced) ∧
    (∀ (now idleTime lastForced : ℚ) (level : ℕ) (player : GameObject)
        (r : ℚ) (objs : List FallingObject),
        (targetMeteorFires now idleTime lastForced = true →
          (spawnTargetMeteor now idleTime lastForced level player r objs).2 =
            now) ∧
        (targetMeteorFires now idleTime lastForced = false →
          spawnTargetMeteor now idleTime lastForced level player r objs =
            (objs, lastForced))) ∧
    (∀ (events : List (ℚ × ℚ)) (lastForced : ℚ),
        List.Chain' (fun t1 t2 => TARGET_METEOR_COOLDOWN ≤ t2 - t1)
          (runTargetMeteor events lastForced)) := by
  refine ⟨targetMeteorFires_iff, ?_, ?_⟩
  · intro now idleTime lastForced level player r objs
    constructor
    · intro h
      simp [spawnTargetMeteor, h]
    · intro h
      simp [spawnTargetMeteor, h]
  · intro events lastForced
    exact (runTargetMeteor_spec events lastForced).1

/-- Witness for C4: a firing invocation at `now = 3000` after
`idleTime = 1000` records `3000`. -/
theorem claim4_witness :
    (spawnTargetMeteor 3000 1000 0 1 ⟨189, 548, 22, 32⟩ (1 / 2) []).2 = 3000 :=
  (claim4_idle_countermeasure.2.1 3000 1000 0 1 ⟨189, 548, 22, 32⟩ (1 / 2) []).1
    (by norm_num [targetMeteorFires, TARGET_METEOR_COOLDOWN, IDLE_THRESHOLD])

/-- C1 counterexample: with the collection exactly at the cap
(`22 = MAX_FALLING_OBJECTS` live obstacles) and both guards passing, a
single forced targeted spawn pushes the collection to `23 >
MAX_FALLING_OBJECTS` — `spawnTargetMeteor` performs no cap check. -/
theorem claim1_counterexample :
    (List.replicate 22
        ({ x := 0, y := 0, width := 28, height := 28, speed := 5.25 } :
          FallingObject)).length ≤ MAX_FALLING_OBJECTS ∧
    MAX_FALLING_OBJECTS <
      ((spawnTargetMeteor 3000 1000 0 1
          { x := 189, y := 548, width := 22, height := 32 } (1 / 2)
          (List.replicate 22
            { x := 0, y := 0, width := 28, height := 28, speed := 5.25 })).1).length := by
  constructor
  · simp [MAX_FALLING_OBJECTS]
  · rw [spawnTargetMeteor,
      if_pos (by norm_num [targetMeteorFires, TARGET_METEOR_COOLDOWN, IDLE_THRESHOLD])]
    simp [MAX_FALLING_OBJECTS]

/-- C1 (amended): the regular Spawner preserves `count ≤
MAX_FALLING_OBJECTS` (it refuses to spawn at the cap); the forced targeted
spawn, by contrast, has no cap check and only guarantees `count ≤ previous
count + 1`, so a single invocation of it can push the collection to
`MAX_FALLING_OBJECTS + 1`. -/
theorem claim1_amended_caps :
    (∀ (level : ℕ) (r1 r2 : ℚ) (objs : List FallingObject),
        objs.length ≤ MAX_FALLING_OBJECTS →
        (spawnFallingObject level r1 r2 objs).length ≤ MAX_FALLING_OBJECTS) ∧
    (∀ (now idleTime lastForced : ℚ) (level : ℕ) (player : GameObject)
        (r : ℚ) (objs : List FallingObject),
        ((spawnTargetMeteor now idleTime lastForced level player r objs).1).length ≤
          objs.length + 1) := by
  constructor
  · intro level r1 r2 objs h
    unfold spawnFallingObject
    by_cases hc : MAX_FALLING_OBJECTS ≤ objs.length
    · rw [if_pos hc]
      exact h
    · rw [if_neg hc]
      push_neg at hc
      by_cases hr :
          r1 < min (SPAWN_RATE * (1 + ((level : ℚ) - 1) * 0.15)) (SPAWN_RATE * 2)
      · rw [if_pos hr]
        simp only [List.length_append, List.length_cons, List.length_nil]
        omega
      · rw [if_neg hr]
        exact h
  · intro now idleTime lastForced level player r objs
    unfold spawnTargetMeteor
    by_cases h : targetMeteorFires now idleTime lastForced = true
    · simp [h]
    · simp [h]

/-- Witness for the amended C1: a Spawner invocation on an empty
collection stays within the cap. -/
theorem claim1_witness :
    (spawnFallingObject 1 1 0 []).length ≤ MAX_FALLING_OBJECTS :=
  claim1_amended_caps.1 1 1 0 [] (by decide)

/-- C10: every obstacle either spawn path creates has `y = 0` and `x ∈ [0,
CANVAS_WIDTH − FALLING_OBJECT_WIDTH]` — the regular Spawner because its
random sample lies in `[0, 1)`, the targeted spawn because it clamps
`playerCenter − width/2 + jitter` into that interval, the jitter
`(r − 0.5) × 40` itself lying in `[−20, 20)` for `r ∈ [0, 1)`. -/
theorem claim10_spawn_positions :
    (∀ (level : ℕ) (r1 r2 : ℚ) (objs : List FallingObject),
        0 ≤ r2 → r2 < 1 →
        spawnFallingObject level r1 r2 objs = objs ∨
        ∃ o : FallingObject,
          spawnFallingObject level r1 r2 objs = objs ++ [o] ∧ o.y = 0 ∧
            0 ≤ o.x ∧ o.x ≤ CANVAS_WIDTH - FALLING_OBJECT_WIDTH) ∧
    (∀ (now idleTime lastForced : ℚ) (level : ℕ) (player : GameObject)
        (r : ℚ) (objs : List FallingObject),
        (spawnTargetMeteor now idleTime lastForced level player r objs).1 = objs ∨
        ∃ o : FallingObject,
          (spawnTargetMeteor now idleTime lastForced level player r objs).1 =
              objs ++ [o] ∧ o.y = 0 ∧
            0 ≤ o.x ∧ o.x ≤ CANVAS_WIDTH - FALLING_OBJECT_WIDTH ∧
            o.x = targetMeteorX player r) ∧
    (∀ r : ℚ, 0 ≤ r → r < 1 →
        -20 ≤ (r - 0.5) * 40 ∧ (r - 0.5) * 40 < 20) := by
  refine ⟨?_, ?_, ?_⟩
  · intro level r1 r2 objs h0 h1
    unfold spawnFallingObject
    by_cases hc : MAX_FALLING_OBJECTS ≤ objs.length
    · exact Or.inl (by rw [if_pos hc])
    · rw [if_neg hc]
      by_cases hr :
          r1 < min (SPAWN_RATE * (1 + ((level : ℚ) - 1) * 0.15)) (SPAWN_RATE * 2)
      · refine Or.inr ⟨_, by rw [if_pos hr], rfl, ?_, ?_⟩
        · have : (0 : ℚ) ≤ CANVAS_WIDTH - FALLING_OBJECT_WIDTH := by
            norm_num [CANVAS_WIDTH, FALLING_OBJECT_WIDTH]
          exact mul_nonneg h0 this
        · have h372 : (0 : ℚ) ≤ CANVAS_WIDTH - FALLING_OBJECT_WIDTH := by
            norm_num [CANVAS_WIDTH, FALLING_OBJECT_WIDTH]
          calc r2 * (CANVAS_WIDTH - FALLING_OBJECT_WIDTH)
              ≤ 1 * (CANVAS_WIDTH - FALLING_OBJECT_WIDTH) :=
                mul_le_mul_of_nonneg_right (le_of_lt h1) h372
            _ = CANVAS_WIDTH - FALLING_OBJECT_WIDTH := one_mul _
      · exact Or.inl (by rw [if_neg hr])
  · intro now idleTime lastForced level player r objs
    unfold spawnTargetMeteor
    by_cases h : targetMeteorFires now idleTime lastForced = true
    · refine Or.inr ⟨_, by rw [if_pos h], rfl, ?_, ?_, rfl⟩
      · exact le_max_left 0 _
      · refine max_le ?_ (min_le_left _ _)
        norm_num [CANVAS_WIDTH, FALLING_OBJECT_WIDTH]
    · exact Or.inl (by rw [if_neg h])
  · intro r h0 h1
    constructor
    · nlinarith
    · nlinarith

/-- Witness for C10: a Spawner invocation with position sample `1/2`. -/
theorem claim10_witness :
    spawnFallingObject 1 1 (1 / 2) [] = [] ∨
    ∃ o : FallingObject,
      spawnFallingObject 1 1 (1 / 2) [] = [] ++ [o] ∧ o.y = 0 ∧
        0 ≤ o.x ∧ o.x ≤ CANVAS_WIDTH - FALLING_OBJECT_WIDTH :=
  claim10_spawn_positions.1 1 1 (1 / 2) [] (by norm_num) (by norm_num)

/-- C9 failing input: the loop never clamps `dt`.  With `prev = 500` and
`now = 500 + 166.667` the clock yields `dt = 10 > 5`, and the integrator
advances an obstacle of speed `5.25` by the full `52.5` pixels in one tick
— more than the `5 × 5.25 = 26.25` a cap at `dt = 5` would allow.  The
claimed defensive clamp does not exist in the code. -/
theorem claim9_no_dt_clamp :
    simClockDt (500 + 166667 / 1000) 500 = 10 ∧
    (5 : ℚ) < simClockDt (500 + 166667 / 1000) 500 ∧
    (updateFallingObjects (simClockDt (500 + 166667 / 1000) 500)
        [{ x := 100, y := 0, width := 28, height := 28, speed := 5.25 }]).1 =
      [{ x := 100, y := 52.5, width := 28, height := 28, speed := 5.25 }] ∧
    (5 : ℚ) * 5.25 < 52.5 := by
  have hdt : simClockDt (500 + 166667 / 1000) 500 = 10 := by
    norm_num [simClockDt]
  refine ⟨hdt, by rw [hdt]; norm_num, ?_, by norm_num⟩
  rw [hdt]
  norm_num [updateFallingObjects, moveObstacle, CANVAS_HEIGHT]

/-- Two collision tests of the common `√a < 1 + √b / √2` shape agree when
their radicands agree. -/
lemma sqrt_lt_congr {a b a2 b2 : ℝ} (ha : a = a2) (hb : b = b2) :
    (Real.sqrt a < 1 + Real.sqrt b / Real.sqrt 2 ↔
      Real.sqrt a2 < 1 + Real.sqrt b2 / Real.sqrt 2) := by
  rw [ha, hb]

/-- C2: the Collision Detector's test coincides with the spec's formula —
collision exactly when `√((dx/rx)² + (dy/ry)²) < 1 + transformedRadius`
with `rx = playerWidth/2 × 0.35`, `ry = playerHeight/2 × 0.45`, `radius =
min(w,h)/2 × 0.45` and `transformedRadius = √((radius/rx)² +
(radius/ry)²)/√2`, the exact-boundary case being non-colliding by the
strict inequality; and `checkCollisions` returns `gameOver` on the first
colliding obstacle regardless of the rest of the collection (short-circuit),
and returns `gameOver` precisely when some live obstacle collides. -/
theorem claim2_collision_detector :
    (∀ (p : GameObject) (m : FallingObject),
        checkCollision p m ↔ specCollisionTest p m) ∧
    (∀ (p : GameObject) (o : FallingObject) (rest : List FallingObject),
        checkCollision p o →
        checkCollisions p (o :: rest) = GameState.gameOver) ∧
    (∀ (p : GameObject) (objs : List FallingObject),
        checkCollisions p objs = GameState.gameOver ↔
          ∃ o ∈ objs, checkCollision p o) := by
  refine ⟨?_, ?_, ?_⟩
  · intro p m
    simp only [checkCollision, ellipseVsCircle, specCollisionTest,
      getPlayerEllipseHitbox, getMeteorCircleHitbox]
    exact sqrt_lt_congr
      (by push_cast [PLAYER_SCALE_RX, PLAYER_SCALE_RY, METEOR_SCALE]; norm_num; ring)
      (by push_cast [PLAYER_SCALE_RX, PLAYER_SCALE_RY, METEOR_SCALE]; norm_num; ring)
  · intro p o rest h
    simp [checkCollisions, h]
  · intro p objs
    induction objs with
    | nil => simp [checkCollisions]
    | cons o rest ih =>
      by_cases h : checkCollision p o
      · simp [checkCollisions, h]
      · simp [checkCollisions, h, ih]

/-- Witness for C2: a meteor concentric with the player collides (zero
normalized distance), so a one-obstacle check ends the game. -/
theorem claim2_witness :
    checkCollisions ⟨189, 548, 22, 32⟩ [⟨186, 550, 28, 28, 5.25⟩] =
      GameState.gameOver :=
  claim2_collision_detector.2.1 ⟨189, 548, 22, 32⟩ ⟨186, 550, 28, 28, 5.25⟩ []
    (by
      simp only [checkCollision, ellipseVsCircle, getPlayerEllipseHitbox,
        getMeteorCircleHitbox]
      norm_num [Real.sqrt_zero]
      positivity)

end DodgeGame
